import Mathlib

/-!
Verification development for the Server Launch & Runtime Resolution Engine
of the mcp-server-manager repository.

The Python sources `runtime_manager.py` and `gui_bridge.py` are shallowly
embedded below.  Pure helpers become Lean functions; filesystem, subprocess
and network effects are threaded explicitly through oracle records (a field
per observable outcome of an effectful call), and the HTTP handler
`server_control` (action "start") becomes a pure function from such an
oracle world to its JSON response together with the list of spawned
commands.  Strings are modelled with Lean `String`/`List Char`; Python ints
with `Int`.
-/

namespace McpMgr

/-! ## Generic list and string helpers (ASCII-level models of the Python
string operations used by the sources). -/

/-- Model of "needle occurs at the head of hay". -/
def listStarts {α : Type} [DecidableEq α] : List α → List α → Bool
  | [], _ => true
  | _ :: _, [] => false
  | a :: as, b :: bs => if a = b then listStarts as bs else false

/-- Model of Python's `needle in hay` contiguous-substring test on lists. -/
def listHasSub {α : Type} [DecidableEq α] (needle : List α) : List α → Bool
  | [] => needle.isEmpty
  | a :: rest => listStarts needle (a :: rest) || listHasSub needle rest

/-- Python `needle in hay` on strings. -/
def strHasSub (hay needle : String) : Bool := listHasSub needle.data hay.data

/-- Python `str.lower()` (ASCII; the substrings compared in the sources are ASCII). -/
def lowerStr (s : String) : String := ⟨s.data.map Char.toLower⟩

/-- Python `str.endswith(suffixStr)`. -/
def strEndsWith (hay suffixStr : String) : Bool :=
  listStarts suffixStr.data.reverse hay.data.reverse

/-- Whitespace class of Python `str.strip()` / `\s` (ASCII part). -/
def isSpaceChar (c : Char) : Bool :=
  c = ' ' || c = '\t' || c = '\n' || c = '\r' || c = '\x0b' || c = '\x0c'

/-- Python `str.strip()` on a char list. -/
def stripChars (cs : List Char) : List Char :=
  ((cs.dropWhile isSpaceChar).reverse.dropWhile isSpaceChar).reverse

/-- Python `str.strip()`. -/
def stripStr (s : String) : String := ⟨stripChars s.data⟩

/-- Split a char list at every occurrence of `sep` (Python `str.split(sep)`). -/
def splitOnCharAux (sep : Char) : List Char → List Char → List (List Char)
  | [], acc => [acc.reverse]
  | c :: rest, acc =>
    if c = sep then acc.reverse :: splitOnCharAux sep rest []
    else splitOnCharAux sep rest (c :: acc)

/-- Python `str.split(sep)` for a one-character separator. -/
def splitOnChar (sep : Char) (s : List Char) : List (List Char) :=
  splitOnCharAux sep s []

/-- Digit run to `Nat` (the digits were validated beforehand). -/
def digitsToNat (ds : List Char) : Nat :=
  ds.foldl (fun n c => n * 10 + (c.toNat - '0'.toNat)) 0

/-- Model of Python `int(s)` on a decimal string: surrounding whitespace,
an optional sign, then one or more ASCII digits (underscore digit grouping
is elided).  `none` models the `ValueError` the sources catch. -/
def pyIntOfChars (cs : List Char) : Option Int :=
  let t := stripChars cs
  let core : List Char → Option Int := fun ds =>
    if ds ≠ [] ∧ ds.all Char.isDigit then some (Int.ofNat (digitsToNat ds)) else none
  match t with
  | '+' :: ds => core ds
  | '-' :: ds => (core ds).map (fun n => -n)
  | ds => core ds

/-- Python lexicographic `<` on 2-tuples of ints. -/
def pairLt (a b : Int × Int) : Bool := a.1 < b.1 || (a.1 = b.1 && a.2 < b.2)

/-- Python lexicographic `<` on 3-tuples of ints. -/
def tripleLt (a b : Int × Int × Int) : Bool :=
  a.1 < b.1 || (a.1 = b.1 && (a.2.1 < b.2.1 || (a.2.1 = b.2.1 && a.2.2 < b.2.2)))

/-! ## runtime_manager.py — data model -/

/-- One subdirectory of `<runtime_home>/python` as the catalog sees it:
its name (the version string), whether it is a directory, and whether the
`bin/python3` symlink inside it exists (in the `Path.exists` sense, i.e.
non-dangling).  `dirs` is kept in the `sorted(root.iterdir())` order. -/
structure RtDir where
  name : String
  isDir : Bool
  hasPythonLink : Bool
deriving DecidableEq, Repr

/-- State of the managed-runtime home directory. -/
structure RuntimeFS where
  rootExists : Bool
  dirs : List RtDir
deriving DecidableEq, Repr

/-- `runtime_manager.ManagedPython` (paths as strings). -/
structure ManagedPython where
  version : String
  root : String
  python : String
deriving DecidableEq, Repr

/-- `runtime_manager.managed_python_dir` relative to a runtime home path. -/
def managedPythonDir (home version : String) : String :=
  home ++ "/python/" ++ version

/-- `runtime_manager._version_tuple`: strip, split on `.`, need at least two
parts; `major`/`minor` via `int(...)` (failure gives `none`); `patch` is
`int(parts[2])` when a third part exists and is all digits, else `0`. -/
def versionTuple (version : String) : Option (Int × Int × Int) :=
  let parts := splitOnChar '.' (stripChars version.data)
  if parts.length < 2 then none
  else
    match pyIntOfChars (parts.getD 0 []), pyIntOfChars (parts.getD 1 []) with
    | some major, some minor =>
      let patch : Int :=
        match parts.getD 2 [] with
        | [] => 0
        | p2 => if parts.length ≥ 3 ∧ p2.all Char.isDigit then Int.ofNat (digitsToNat p2) else 0
      some (major, minor, patch)
    | _, _ => none

/-- `runtime_manager.list_managed_pythons`: every subdirectory of
`<home>/python` that exposes a `bin/python3`. -/
def listManagedPythons (home : String) (fs : RuntimeFS) : List ManagedPython :=
  if fs.rootExists then
    fs.dirs.filterMap fun d =>
      if d.isDir && d.hasPythonLink then
        some { version := d.name
               root := managedPythonDir home d.name
               python := managedPythonDir home d.name ++ "/bin/python3" }
      else none
  else []

/-- One iteration of the `choose_managed_python_at_least` loop. -/
def chooseStep (minMajor minMinor : Int) (best : Option ManagedPython)
    (mp : ManagedPython) : Option ManagedPython :=
  match versionTuple mp.version with
  | none => best
  | some vt =>
    if pairLt (vt.1, vt.2.1) (minMajor, minMinor) then best
    else
      match best with
      | none => some mp
      | some b =>
        match versionTuple b.version with
        | some bvt => if tripleLt bvt vt then some mp else some b
        | none => some b

/-- `runtime_manager.choose_managed_python_at_least`. -/
def chooseManagedPythonAtLeast (home : String) (fs : RuntimeFS)
    (minMajor minMinor : Int) : Option ManagedPython :=
  (listManagedPythons home fs).foldl (chooseStep minMajor minMinor) none

/-! ## runtime_manager.py — hardened tar extraction -/

/-- The fields of a `tarfile.TarInfo` member that `_safe_extract_tar_gz`
inspects. -/
structure TarMember where
  name : String
  isSym : Bool
  isLnk : Bool
deriving DecidableEq, Repr

/-- Path split into its non-trivial segments (drops empty segments and `.`),
modelling POSIX path handling of `pathlib`. -/
def pathSegs (s : String) : List String :=
  (splitOnChar '/' s.data).filterMap fun seg =>
    if seg = [] ∨ seg = ['.'] then none else some ⟨seg⟩

/-- Lexical model of `(dest_dir / name).resolve()` for an already-resolved
absolute `dest_dir` given as segments: append segments, `..` pops (clamped
at the filesystem root).  Symlink following does not arise: the staging
directory is freshly created and validation precedes any write. -/
def resolveUnder (dest : List String) (name : String) : List String :=
  (pathSegs name).foldl
    (fun acc seg => if seg = ".." then acc.dropLast else acc ++ [seg]) dest

/-- First character test (Python `str.startswith` with a 1-char needle). -/
def strStartsWithChar (s : String) (c : Char) : Bool :=
  match s.data with
  | [] => false
  | a :: _ => a = c

/-- The per-member validation of `_safe_extract_tar_gz`, in source order:
absolute path, then containment under `dest`, then link members. -/
def checkMember (dest : List String) (m : TarMember) : Except String Unit :=
  if strStartsWithChar m.name '/' || strStartsWithChar m.name '\\' then
    Except.error ("Refusing to extract absolute tar member path: " ++ m.name)
  else if resolveUnder dest m.name = dest ∨ listStarts dest (resolveUnder dest m.name) = true then
    if m.isSym || m.isLnk then
      Except.error ("Refusing to extract tar link member: " ++ m.name)
    else Except.ok ()
  else Except.error ("Refusing to extract tar member outside dest: " ++ m.name)

/-- Validation loop over all members; the first offending member aborts. -/
def checkMembers (dest : List String) : List TarMember → Except String Unit
  | [] => Except.ok ()
  | m :: rest =>
    match checkMember dest m with
    | Except.error e => Except.error e
    | Except.ok _ => checkMembers dest rest

/-- `runtime_manager._safe_extract_tar_gz`: count guard, then validation of
every member, and only then `extractall` — modelled by returning the list
of resolved target paths that extraction writes.  An error therefore means
nothing at all was written. -/
def safeExtractTarGz (members : List TarMember) (destDir : String) :
    Except String (List (List String)) :=
  let dest := pathSegs destDir
  if members.length > 50000 then
    Except.error "Refusing to extract tarball: too many members"
  else
    match checkMembers dest members with
    | Except.error e => Except.error e
    | Except.ok _ => Except.ok (members.map fun m => resolveUnder dest m.name)

/-! ## runtime_manager.py — standalone-runtime URL resolution -/

/-- A release asset as `resolve_standalone_python_url` sees it. -/
structure Asset where
  name : String
  url : String
deriving DecidableEq, Repr

/-- `runtime_manager._indygreg_platform_matchers` given the probed platform
strings: returns `(arch_token, os_token)`. -/
def indygregPlatformMatchers (sysPlatform machine : String) : String × String :=
  let m := lowerStr machine
  let s := lowerStr sysPlatform
  let arch :=
    if m = "arm64" ∨ m = "aarch64" then "aarch64"
    else if m = "x86_64" ∨ m = "amd64" then "x86_64"
    else m
  let osToken :=
    if s = "darwin" then "apple-darwin"
    else if s = "linux" then "unknown-linux"
    else if s = "windows" then "pc-windows"
    else s
  (arch, osToken)

/-- The filter of the asset loop: nonempty name and URL, the lowered name
contains `cpython-<version>`, the OS token and the arch token, and ends in
`.tar.gz`. -/
def assetPasses (want osToken arch : String) (a : Asset) : Bool :=
  let n := lowerStr a.name
  ¬(a.name = "") && ¬(a.url = "") && strHasSub n want && strHasSub n osToken &&
    strHasSub n arch && strEndsWith n ".tar.gz"

/-- The additive score of a passing asset: `install_only` +10, `pgo` +1,
`lto` +1 (on the lowered name). -/
def assetScore (a : Asset) : Nat :=
  let n := lowerStr a.name
  (if strHasSub n "install_only" then 10 else 0) +
    (if strHasSub n "pgo" then 1 else 0) +
    (if strHasSub n "lto" then 1 else 0)

/-- The best-tracking loop of `resolve_standalone_python_url`: `none` models
the initial `best_score = -1`; a later asset replaces the best only when its
score is strictly greater. -/
def resolveLoop (want osToken arch : String) :
    List Asset → Option (String × Nat) → Option (String × Nat)
  | [], best => best
  | a :: rest, best =>
    if assetPasses want osToken arch a then
      let sc := assetScore a
      match best with
      | none => resolveLoop want osToken arch rest (some (a.url, sc))
      | some (bu, bs) =>
        if bs < sc then resolveLoop want osToken arch rest (some (a.url, sc))
        else resolveLoop want osToken arch rest (some (bu, bs))
    else resolveLoop want osToken arch rest best

/-- `runtime_manager.resolve_standalone_python_url`, with the release index
(the parsed JSON of the network call) passed explicitly; `none` models the
network failure branch. -/
def resolveStandalonePythonUrl (version provider arch osToken : String)
    (releases : Option (List (List Asset))) : Except String String :=
  if ¬(lowerStr (stripStr provider) = "indygreg") then
    Except.error ("Unsupported runtime provider: " ++ provider)
  else
    match releases with
    | none => Except.error "Failed to resolve standalone Python URL (network required)"
    | some rels =>
      let want := lowerStr ("cpython-" ++ version)
      match resolveLoop want osToken arch rels.flatten none with
      | some (u, _) => Except.ok u
      | none =>
        Except.error ("No standalone Python asset found for " ++ version ++
          " (" ++ arch ++ "-" ++ osToken ++ "). Provide an explicit --url.")

/-! ## runtime_manager.py — ensure_managed_python as a step machine -/

/-- Which step of `ensure_managed_python` produced a failure. -/
inductive ProvStep where
  | resolveUrlStep
  | downloadStep
  | extractStep
  | findExeStep
  | moveStep
  | findExe2Step
  | metaStep
deriving DecidableEq, Repr

/-- Outcomes of the effectful steps of one `ensure_managed_python` run:
URL resolution, `urlretrieve`, archive open + `_safe_extract_tar_gz`,
`_find_python3` on the staging dir, the payload move, `_find_python3` on
the payload, and the `meta.json` write. -/
structure ProvisionSteps where
  resolveUrl : Except String String
  download : Except String Unit
  extract : Except String Unit
  findPy : Option String
  movePayload : Except String Unit
  findPy2 : Option String
  metaWrite : Except String Unit

/-- Whether `<home>/python/<version>/bin/python3` exists in `fs`. -/
def fsHasLink (fs : RuntimeFS) (version : String) : Bool :=
  fs.dirs.any fun d => d.name = version && d.hasPythonLink

/-- Effect of `dest.parent.mkdir(...)`, `shutil.rmtree(dest)` (when
present) and `dest.mkdir(...)`: the version directory exists and holds no
interpreter symlink. -/
def fsWipe (fs : RuntimeFS) (version : String) : RuntimeFS :=
  { rootExists := true
    dirs :=
      if fs.dirs.any (fun d => d.name = version) then
        fs.dirs.map fun d =>
          if d.name = version then
            { name := version, isDir := true, hasPythonLink := false }
          else d
      else fs.dirs ++ [{ name := version, isDir := true, hasPythonLink := false }] }

/-- Effect of `python_link.symlink_to(found)`. -/
def fsSetLink (fs : RuntimeFS) (version : String) : RuntimeFS :=
  { fs with
    dirs := fs.dirs.map fun d =>
      if d.name = version then { d with hasPythonLink := true } else d }

/-- Result of one `ensure_managed_python` run: the returned record or the
propagated exception tagged with its step, the filesystem state at return
or raise time, and how many network operations were attempted. -/
structure EnsureResult where
  result : Except (ProvStep × String) ManagedPython
  fs : RuntimeFS
  networkCalls : Nat

/-- The post-wipe tail of `ensure_managed_python`, from download onward
(`net0` network calls already spent on URL resolution). -/
def ensureRest (steps : ProvisionSteps) (home : String) (fs1 : RuntimeFS)
    (version : String) (net0 : Nat) : EnsureResult :=
  match steps.download with
  | Except.error e => ⟨Except.error (ProvStep.downloadStep, e), fs1, net0 + 1⟩
  | Except.ok _ =>
    match steps.extract with
    | Except.error e => ⟨Except.error (ProvStep.extractStep, e), fs1, net0 + 1⟩
    | Except.ok _ =>
      match steps.findPy with
      | none =>
        ⟨Except.error (ProvStep.findExeStep,
          "Managed Python install failed: python3 executable not found in archive"),
          fs1, net0 + 1⟩
      | some _ =>
        match steps.movePayload with
        | Except.error e => ⟨Except.error (ProvStep.moveStep, e), fs1, net0 + 1⟩
        | Except.ok _ =>
          match steps.findPy2 with
          | none =>
            ⟨Except.error (ProvStep.findExe2Step,
              "Managed Python install failed after payload move: python3 not found"),
              fs1, net0 + 1⟩
          | some _ =>
            match steps.metaWrite with
            | Except.error e =>
              ⟨Except.error (ProvStep.metaStep, e), fsSetLink fs1 version, net0 + 1⟩
            | Except.ok _ =>
              ⟨Except.ok ⟨version, managedPythonDir home version,
                  managedPythonDir home version ++ "/bin/python3"⟩,
                fsSetLink fs1 version, net0 + 1⟩

/-- `runtime_manager.ensure_managed_python`: early idempotent return when
the interpreter symlink already exists and `force` is false; otherwise wipe
the version directory and run the provisioning steps (the `bin` mkdir and
`symlink_to` are modelled as part of `fsSetLink`). -/
def ensureManagedPython (steps : ProvisionSteps) (home : String)
    (fs : RuntimeFS) (version : String) (url : Option String) (force : Bool) :
    EnsureResult :=
  if fsHasLink fs version && !force then
    ⟨Except.ok ⟨version, managedPythonDir home version,
        managedPythonDir home version ++ "/bin/python3"⟩, fs, 0⟩
  else if stripStr (url.getD "") = "" then
    match steps.resolveUrl with
    | Except.error e => ⟨Except.error (ProvStep.resolveUrlStep, e), fsWipe fs version, 1⟩
    | Except.ok _ => ensureRest steps home (fsWipe fs version) version 1
  else ensureRest steps home (fsWipe fs version) version 0

end McpMgr

namespace McpMgr

/-! ## gui_bridge.py — pure helpers -/

/-- Try to match the regex `>=\s*(\d+)\.(\d+)` at the head of `cs`.  The
greedy digit runs are exact here: backtracking inside `(\d+)` can never
make the following literal `.` match. -/
def matchGEAt (cs : List Char) : Option (Nat × Nat) :=
  match cs with
  | '>' :: '=' :: rest =>
    let rest2 := rest.dropWhile isSpaceChar
    let d1 := rest2.takeWhile Char.isDigit
    let rest3 := rest2.dropWhile Char.isDigit
    if d1 = [] then none
    else
      match rest3 with
      | '.' :: rest4 =>
        let d2 := rest4.takeWhile Char.isDigit
        if d2 = [] then none else some (digitsToNat d1, digitsToNat d2)
      | _ => none
  | _ => none

/-- `re.search`: first position (left to right) where the pattern matches. -/
def findGEMatch : List Char → Option (Nat × Nat)
  | [] => none
  | c :: rest =>
    match matchGEAt (c :: rest) with
    | some r => some r
    | none => findGEMatch rest

/-- `gui_bridge._min_python_from_spec`: extract `(major, minor)` from the
first `>=X.Y` occurrence of a requires-python spec; `none` for an absent or
empty spec or when no `>=X.Y` occurs. -/
def minPythonFromSpec (spec : Option String) : Option (Int × Int) :=
  match spec with
  | none => none
  | some sp =>
    if sp = "" then none
    else (findGEMatch (stripChars sp.data)).map fun p => (Int.ofNat p.1, Int.ofNat p.2)

/-- The observable result of the `subprocess.run` inside
`_python_version_tuple`; `none` models the exception branch (missing
binary, timeout, ...). -/
structure ProbeOutcome where
  returncode : Int
  stdout : String
deriving DecidableEq, Repr

/-- The parsing half of `gui_bridge._python_version_tuple`: non-zero exit
gives `none`; stdout is stripped and split on `.`; fewer than two parts or
an unparsable int (the caught `ValueError`) gives `none`.  Total by
construction — the probe never raises. -/
def parseProbeOutput (res : Option ProbeOutcome) : Option (Int × Int × Int) :=
  match res with
  | none => none
  | some r =>
    if ¬(r.returncode = 0) then none
    else
      let parts := splitOnChar '.' (stripChars r.stdout.data)
      if parts.length < 2 then none
      else
        match pyIntOfChars (parts.getD 0 []), pyIntOfChars (parts.getD 1 []) with
        | some major, some minor =>
          if 2 < parts.length then
            match pyIntOfChars (parts.getD 2 []) with
            | some patch => some (major, minor, patch)
            | none => none
          else some (major, minor, 0)
        | _, _ => none

/-- `gui_bridge._looks_like_python_lt_310_union_error`: the log tail,
lowercased, contains both the PEP604 operand error and `nonetype`. -/
def looksLikePythonLt310UnionError (logTail : String) : Bool :=
  let t := lowerStr logTail
  strHasSub t "unsupported operand type(s) for |" && strHasSub t "nonetype"

/-- The ordered candidate names probed by `_find_python_at_least`. -/
def pythonCandidates : List String :=
  ["python3.13", "python3.12", "python3.11", "python3.10", "python3", "python"]

/-! ## gui_bridge.py — oracle world for one launch request

Every effectful call of the launch path appears as a field: its value is
the outcome that call would observe during this request.  `cwd`/`env` of
the probes are fixed per launch, so the probe oracle keys on the
executable path alone. -/

/-- Outcomes of the `_ensure_server_venv` subprocess calls. -/
structure VenvEnv where
  venvPyExists : Bool
  venvCreateRc : Option Int
  venvPyExistsAfter : Bool
  pipRc : Option Int
deriving DecidableEq, Repr

/-- Runtime events of one spawned process as the supervisor observes them:
whether the fast-fail poll loop sees an exit (and its code), and the log
tails read afterwards (`""` also models a failed read, which the source
catches and treats as an empty tail). -/
structure ProcBehavior where
  fastExit : Option Int
  logTail : String
  graceTail : String
deriving DecidableEq, Repr

/-- All oracles consulted by one `server_control` start request. -/
structure World where
  shlexSplit : String → List String
  osEnviron : List (String × String)
  which : String → Option String
  abspath : String → String
  probeRaw : String → Option ProbeOutcome
  pyprojectExists : Bool
  parsedRequiresPython : Option String
  scripts : List (String × String)
  srcDirExists : Bool
  pathExists : Bool
  needsRepair : Bool
  repairOk : Bool
  venv : VenvEnv
  runtimeFS : RuntimeFS
  runtimeHome : String
  logDir : String
  stamp : Nat → String
  sessionLogger : Bool
  behavior1 : ProcBehavior
  behavior2FastExit : Option Int

/-- `gui_bridge._python_version_tuple` over the oracle world. -/
def pythonVersionTuple (w : World) (exe : String) : Option (Int × Int × Int) :=
  parseProbeOutput (w.probeRaw exe)

/-- The candidate scan of `_find_python_at_least`: `shutil.which`, the
`exclude` comparison on `os.path.abspath`, then the probe — a candidate
whose probe yields `none` is skipped. -/
def findPythonAtLeastAux (w : World) (minV : Int × Int) (exclude : Option String) :
    List String → Option String
  | [] => none
  | name :: rest =>
    match w.which name with
    | none => findPythonAtLeastAux w minV exclude rest
    | some exe =>
      if (match exclude with
          | some e => decide (w.abspath exe = w.abspath e)
          | none => false) then
        findPythonAtLeastAux w minV exclude rest
      else
        match pythonVersionTuple w exe with
        | none => findPythonAtLeastAux w minV exclude rest
        | some v =>
          if pairLt (v.1, v.2.1) minV then findPythonAtLeastAux w minV exclude rest
          else some exe

/-- `gui_bridge._find_python_at_least`. -/
def findPythonAtLeast (w : World) (minV : Int × Int) (exclude : Option String) :
    Option String :=
  findPythonAtLeastAux w minV exclude pythonCandidates

/-- Path of the setup log `_ensure_server_venv` writes. -/
def setupLogPath (logDir dirName stamp : String) : String :=
  logDir ++ "/" ++ dirName ++ "_setup_" ++ stamp ++ ".log"

/-- `gui_bridge._ensure_server_venv`: create the venv when its interpreter
is absent (non-zero exit returns `(None, log)`), then `pip install -e .`
(whose return code is recorded but does NOT clear the interpreter path);
an exception returns the interpreter path only if the venv interpreter
exists at that moment.  The setup-log path is returned on every path. -/
def ensureServerVenv (e : VenvEnv) (serverDir dirName logDir stamp : String) :
    Option String × String :=
  let venvPy := serverDir ++ "/.venv/bin/python"
  let setupLog := setupLogPath logDir dirName stamp
  if ¬ e.venvPyExists then
    match e.venvCreateRc with
    | none => (if e.venvPyExistsAfter then some venvPy else none, setupLog)
    | some rc =>
      if ¬(rc = 0) then (none, setupLog)
      else
        match e.pipRc with
        | none => (if e.venvPyExistsAfter then some venvPy else none, setupLog)
        | some _ => (some venvPy, setupLog)
  else
    match e.pipRc with
    | none => (if e.venvPyExistsAfter then some venvPy else none, setupLog)
    | some _ => (some venvPy, setupLog)

/-! ## gui_bridge.py — command resolution -/

/-- The fields of an inventory server entry that the start path reads. -/
structure LaunchConfig where
  sId : String
  startCmd : Option String
  path : Option String
  runtimePin : Option String
deriving Repr

/-- Result of `_resolve_server_run`.  `quad` is the literal
`([], None, {}, None)` 4-tuple the source returns for an empty command —
unpacking it into five names at the call site raises `ValueError`. -/
inductive ResolveResult where
  | quad
  | ok (argv : List String) (cwd : Option String) (env : List (String × String))
      (note : Option String) (requiresPython : Option String)
deriving Repr

/-- `pathlib.Path(s).name` for the ordinary paths compared here. -/
def pathName (s : String) : String :=
  match ((splitOnChar '/' s.data).filter fun seg => ¬(seg = [])).reverse with
  | [] => ""
  | seg :: _ => ⟨seg⟩

/-- Lookup in the copied process environment. -/
def envGet (env : List (String × String)) (k : String) : Option String :=
  (env.find? fun p => p.1 = k).map (·.2)

/-- Assignment into the copied process environment. -/
def envSet (env : List (String × String)) (k v : String) : List (String × String) :=
  if env.any (fun p => p.1 = k) then
    env.map fun p => if p.1 = k then (k, v) else p
  else env ++ [(k, v)]

/-- Python `s.split(":", 1)[0]`. -/
def takeUntilColon (s : String) : String :=
  ⟨s.data.takeWhile fun c => ¬(c = ':')⟩

/-- `gui_bridge._resolve_server_run`: split the start command, read
`requires-python` from a present `pyproject.toml`, and apply the forged
`python3 mcp_server.py` → `-m <module>` entrypoint heuristic. -/
def resolveServerRun (w : World) (t : LaunchConfig) : ResolveResult :=
  let cmd := t.startCmd.getD ""
  if cmd = "" then ResolveResult.quad
  else
    let argv := w.shlexSplit cmd
    let cwd := t.path
    let env := w.osEnviron
    let requiresPython : Option String :=
      match t.path with
      | some _ => if w.pyprojectExists then w.parsedRequiresPython else none
      | none => none
    match argv with
    | a0 :: a1 :: _ =>
      if t.path.isSome ∧ strEndsWith a0 "python3" = true ∧ pathName a1 = "mcp_server.py" ∧
          w.pyprojectExists = true then
        match (w.scripts.find? fun p => p.1 = "notebooklm-mcp").map (·.2) with
        | some mcpScript =>
          let module := takeUntilColon mcpScript
          let argv2 := [a0, "-m", module]
          let env2 :=
            if w.srcDirExists then
              let srcDir := t.path.getD "" ++ "/src"
              envSet env "PYTHONPATH"
                (srcDir ++
                  (match envGet env "PYTHONPATH" with
                   | some old => if old = "" then "" else ":" ++ old
                   | none => ""))
            else env
          ResolveResult.ok argv2 cwd env2
            (some ("Resolved MCP entrypoint from pyproject.toml: notebooklm-mcp -> -m " ++ module))
            requiresPython
        | none => ResolveResult.ok argv cwd env none requiresPython
      else ResolveResult.ok argv cwd env none requiresPython
    | _ => ResolveResult.ok argv cwd env none requiresPython

end McpMgr

namespace McpMgr

/-! ## gui_bridge.py — server_control (action "start") -/

/-- Retry provenance attached to a response after a signature-matched
relaunch. -/
structure RetryInfo where
  reason : String
  firstLogPath : String
deriving DecidableEq, Repr

/-- The JSON response of `server_control` together with its HTTP status;
absent keys are `none`. -/
structure Resp where
  status : Nat
  success : Option Bool
  error : Option String
  detail : Option String
  requiresPython : Option String
  python : Option (Int × Int × Int)
  nextStep : Option String
  returncode : Option Int
  logPath : Option String
  resolvedCmd : Option (List String)
  cwd : Option String
  note : Option String
  retry : Option RetryInfo
deriving DecidableEq, Repr

/-- A 200 response with every optional key absent. -/
def respBase : Resp :=
  { status := 200, success := none, error := none, detail := none
    requiresPython := none, python := none, nextStep := none, returncode := none
    logPath := none, resolvedCmd := none, cwd := none, note := none, retry := none }

/-- One `subprocess.Popen` of a server process: its argv and its log file. -/
structure SpawnRec where
  argv : List String
  logPath : String
deriving DecidableEq, Repr

/-- What one start request did: the response and each spawned process. -/
structure StartResult where
  resp : Resp
  spawns : List SpawnRec
deriving DecidableEq, Repr

/-- The `(note + " | " if note else "") + x` idiom. -/
def noteAppend (note : Option String) (x : String) : Option String :=
  some ((match note with
         | some n => n ++ " | "
         | none => "") ++ x)

/-- The `"retry"` reason string of the response. -/
def retryReason : String := "python<3.10 union crash signature"

/-- The entrypoint-repair block (lines 2016–2028): only the resolution note
can change; the file operations are behind oracles and a bare
`try/except`. -/
def repairStage (w : World) (t : LaunchConfig) (argv : List String)
    (note : Option String) : Option String :=
  match argv with
  | _ :: a1 :: _ =>
    if pathName a1 = "mcp_server.py" ∧ t.path.isSome ∧ w.needsRepair = true ∧
        w.repairOk = true then
      noteAppend note "Auto-repaired forged entrypoint for MCP-stdio compliance"
    else note
  | _ => note

/-- The managed-runtime lookup of the blocked branch: an exact installed
pin when the descriptor declares one, else the best catalog match. -/
def managedLookup (w : World) (t : LaunchConfig) (minV : Int × Int) :
    Option ManagedPython :=
  let pinned : Option ManagedPython :=
    match t.runtimePin with
    | some pin =>
      if ¬(stripStr pin = "") then
        (listManagedPythons w.runtimeHome w.runtimeFS).find? fun mp =>
          mp.version = stripStr pin
      else none
    | none => none
  match pinned with
  | some mp => some mp
  | none => chooseManagedPythonAtLeast w.runtimeHome w.runtimeFS minV.1 minV.2

/-- The 409 blocked response of the runtime gate: the constraint string,
the probed `(major, minor, patch)`, the remediation hint, and the
failure-log path written by `_write_action_log`. -/
def blockedResp (w : World) (t : LaunchConfig) (argv : List String)
    (note : Option String) (rp : Option String) (cwd : Option String)
    (minV : Int × Int) (ver : Int × Int × Int) : Resp :=
  { respBase with
    status := 409
    success := some false
    error := some "Runtime mismatch: Python version too old"
    detail := some ("Python " ++ toString ver.1 ++ "." ++ toString ver.2.1 ++ "." ++
      toString ver.2.2 ++ " is too old for requires-python '" ++ rp.getD "" ++ "'.")
    requiresPython := rp
    python := some ver
    nextStep := some ("mcp-observer runtime ensure --python " ++ toString minV.1 ++
      "." ++ toString minV.2 ++ ".0")
    resolvedCmd := some argv
    cwd := cwd
    note := note
    logPath := some (w.logDir ++ "/" ++ t.sId ++ "_" ++ w.stamp 0 ++ ".log") }

/-- The runtime gate (lines 2030–2090).  A `none` probe skips the gate
(`if ver and ...`).  When the probed version is below the constraint the
gate substitutes a system interpreter, then a managed one, and otherwise
returns the 409 blocked response carrying the constraint string, the
probed `(major, minor, patch)` and the remediation hint. -/
def gateStage (w : World) (t : LaunchConfig) (argv : List String)
    (note : Option String) (rp : Option String) (cwd : Option String) :
    Except Resp (List String × Option String) :=
  match minPythonFromSpec rp with
  | none => Except.ok (argv, note)
  | some minV =>
    let pyExe := argv.headD ""
    match pythonVersionTuple w pyExe with
    | none => Except.ok (argv, note)
    | some ver =>
      if pairLt (ver.1, ver.2.1) minV then
        match findPythonAtLeast w minV (some pyExe) with
        | some fb =>
          Except.ok (fb :: argv.tail,
            noteAppend note ("Auto-selected " ++ fb ++ " to satisfy requires-python " ++
              rp.getD "" ++ " (was " ++ pyExe ++ ")"))
        | none =>
          match managedLookup w t minV with
          | some mp =>
            Except.ok (mp.python :: argv.tail,
              noteAppend note ("Using managed python " ++ mp.version ++
                " to satisfy requires-python " ++ rp.getD "" ++ " (was " ++ pyExe ++ ")"))
          | none =>
            Except.error (blockedResp w t argv note rp cwd minV ver)
      else Except.ok (argv, note)

/-- The per-server venv block (lines 2092–2106): when the server directory
exists and holds a `pyproject.toml`, run `_ensure_server_venv` and
substitute its interpreter into `argv[0]` when one came back. -/
def venvStage (w : World) (t : LaunchConfig) (argv : List String)
    (note : Option String) : List String × Option String × Option String :=
  match t.path with
  | some p =>
    if w.pathExists = true ∧ w.pyprojectExists = true then
      let res := ensureServerVenv w.venv p (pathName p) w.logDir (w.stamp 0)
      match res.1 with
      | some vp =>
        (vp :: argv.tail,
          noteAppend note ("Using per-server venv python (" ++ vp ++ ") (was " ++
            argv.headD "" ++ ")"),
          some res.2)
      | none => (argv, note, some res.2)
    else (argv, note, none)
  | none => (argv, note, none)

/-- The supervisor (lines 2108–2303): spawn, fast-fail polling, the
signature-matched retry, the grace-period traceback check, and the final
response.  In the fast-fail branch the retry-failure return sits inside
`if session_logger:` in the source, so without a session logger a failed
retry falls through to the generic immediate-exit response built from the
first spawn. -/
def superviseStage (w : World) (t : LaunchConfig) (argv : List String)
    (note : Option String) (cwd : Option String) : StartResult :=
  let lp1 := w.logDir ++ "/" ++ t.sId ++ "_" ++ w.stamp 1 ++ ".log"
  let spawn1 : SpawnRec := ⟨argv, lp1⟩
  let genericExit : Int → StartResult := fun rc =>
    ⟨{ respBase with
        status := 500, success := some false
        error := some "Server exited immediately after start"
        returncode := some rc, logPath := some lp1
        resolvedCmd := some argv, cwd := cwd, note := note }, [spawn1]⟩
  let tracebackFail : StartResult :=
    ⟨{ respBase with
        status := 500, success := some false
        error := some "Server produced traceback during start"
        logPath := some lp1, resolvedCmd := some argv, cwd := cwd, note := note },
      [spawn1]⟩
  match w.behavior1.fastExit with
  | some rc =>
    if looksLikePythonLt310UnionError w.behavior1.logTail then
      match findPythonAtLeast w (3, 10) (some (argv.headD "")) with
      | some fb =>
        let retryArgv := fb :: argv.tail
        let retryNote := noteAppend note
          ("Auto-retry with " ++ fb ++ " due to Python<3.10 union crash signature")
        let lp2 := w.logDir ++ "/" ++ t.sId ++ "_" ++ w.stamp 2 ++ ".log"
        let spawn2 : SpawnRec := ⟨retryArgv, lp2⟩
        match w.behavior2FastExit with
        | none =>
          ⟨{ respBase with
              status := 200, success := some true, logPath := some lp2
              resolvedCmd := some retryArgv, cwd := cwd, note := retryNote
              retry := some ⟨retryReason, lp1⟩ }, [spawn1, spawn2]⟩
        | some rc2 =>
          if w.sessionLogger then
            ⟨{ respBase with
                status := 500, success := some false
                error := some "Server exited immediately after start (python retry attempted)"
                returncode := some rc2, logPath := some lp2
                resolvedCmd := some retryArgv, cwd := cwd, note := retryNote
                retry := some ⟨retryReason, lp1⟩ }, [spawn1, spawn2]⟩
          else
            ⟨(genericExit rc).resp, [spawn1, spawn2]⟩
      | none => genericExit rc
    else genericExit rc
  | none =>
    if strHasSub w.behavior1.graceTail "Traceback (most recent call last):" then
      if looksLikePythonLt310UnionError w.behavior1.graceTail then
        match findPythonAtLeast w (3, 10) (some (argv.headD "")) with
        | some fb =>
          let retryArgv := fb :: argv.tail
          let retryNote := noteAppend note
            ("Auto-retry with " ++ fb ++ " due to Python<3.10 union crash signature")
          let lp2 := w.logDir ++ "/" ++ t.sId ++ "_" ++ w.stamp 2 ++ ".log"
          let spawn2 : SpawnRec := ⟨retryArgv, lp2⟩
          match w.behavior2FastExit with
          | none =>
            ⟨{ respBase with
                status := 200, success := some true, logPath := some lp2
                resolvedCmd := some retryArgv, cwd := cwd, note := retryNote
                retry := some ⟨retryReason, lp1⟩ }, [spawn1, spawn2]⟩
          | some rc2 =>
            ⟨{ respBase with
                status := 500, success := some false
                error := some "Server produced traceback during start (python retry attempted)"
                returncode := some rc2, logPath := some lp2
                resolvedCmd := some retryArgv, cwd := cwd, note := retryNote
                retry := some ⟨retryReason, lp1⟩ }, [spawn1, spawn2]⟩
        | none => tracebackFail
      else tracebackFail
    else
      ⟨{ respBase with
          status := 200, success := some true, logPath := some lp1
          resolvedCmd := some argv, cwd := cwd, note := note }, [spawn1]⟩

/-- `gui_bridge.server_control` for `action = "start"`: the empty-command
guard, resolution, the empty-argv guard, entrypoint repair, the runtime
gate, the venv substitution, and the supervisor. -/
def serverControlStart (w : World) (t : LaunchConfig) : StartResult :=
  let cmd := t.startCmd.getD ""
  if cmd = "" then
    ⟨{ respBase with status := 400, error := some "No start command defined" }, []⟩
  else
    match resolveServerRun w t with
    | ResolveResult.quad =>
      ⟨{ respBase with
          status := 500
          error := some "not enough values to unpack (expected 5, got 4)" }, []⟩
    | ResolveResult.ok argv cwd _ note rp =>
      if argv = [] then
        ⟨{ respBase with
            status := 400
            error := some ("No start command resolved for '" ++ t.sId ++ "'") }, []⟩
      else
        let note1 := repairStage w t argv note
        match gateStage w t argv note1 rp cwd with
        | Except.error resp => ⟨resp, []⟩
        | Except.ok (argv2, note2) =>
          let v := venvStage w t argv2 note2
          superviseStage w t v.1 v.2.1 cwd

end McpMgr

namespace McpMgr

/-! ## Lemmas and claim theorems -/

/-- A tar member the hardened extractor must refuse: absolute path,
symlink/hardlink, or a resolved target that is not the destination root
nor strictly below it. -/
def memberUnsafe (dest : List String) (m : TarMember) : Prop :=
  strStartsWithChar m.name '/' = true ∨ strStartsWithChar m.name '\\' = true ∨
  m.isSym = true ∨ m.isLnk = true ∨
  ¬(resolveUnder dest m.name = dest ∨ listStarts dest (resolveUnder dest m.name) = true)

instance (dest : List String) (m : TarMember) : Decidable (memberUnsafe dest m) := by
  unfold memberUnsafe
  infer_instance

theorem checkMember_error_of_unsafe (dest : List String) (m : TarMember)
    (h : memberUnsafe dest m) : ∃ e, checkMember dest m = Except.error e := by
  unfold checkMember
  split_ifs with h1 h2 h3
  · exact ⟨_, rfl⟩
  · exact ⟨_, rfl⟩
  · exfalso
    rcases h with h | h | h | h | h
    · simp [h] at h1
    · simp [h] at h1
    · simp [h] at h3
    · simp [h] at h3
    · exact h h2
  · exact ⟨_, rfl⟩

theorem checkMember_ok_contained (dest : List String) (m : TarMember)
    (h : checkMember dest m = Except.ok ()) :
    resolveUnder dest m.name = dest ∨ listStarts dest (resolveUnder dest m.name) = true := by
  unfold checkMember at h
  split_ifs at h with h1 h2 h3
  all_goals simp_all

theorem checkMembers_error_of_exists (dest : List String) (ms : List TarMember)
    (h : ∃ m ∈ ms, memberUnsafe dest m) :
    ∃ e, checkMembers dest ms = Except.error e := by
  induction ms with
  | nil => simp at h
  | cons a rest ih =>
    rcases h with ⟨m, hm, hbad⟩
    rcases List.mem_cons.mp hm with rfl | hmem
    · obtain ⟨e, he⟩ := checkMember_error_of_unsafe dest m hbad
      exact ⟨e, by simp [checkMembers, he]⟩
    · cases hcm : checkMember dest a with
      | error e => exact ⟨e, by simp [checkMembers, hcm]⟩
      | ok u =>
        obtain ⟨e, he⟩ := ih ⟨m, hmem, hbad⟩
        exact ⟨e, by simp [checkMembers, hcm, he]⟩

theorem checkMembers_ok_contained (dest : List String) (ms : List TarMember)
    (h : checkMembers dest ms = Except.ok ()) :
    ∀ m ∈ ms, resolveUnder dest m.name = dest ∨
      listStarts dest (resolveUnder dest m.name) = true := by
  induction ms with
  | nil => intro m hm; simp at hm
  | cons a rest ih =>
    intro m hm
    unfold checkMembers at h
    cases hcm : checkMember dest a with
    | error e => rw [hcm] at h; exact absurd h (by simp)
    | ok u =>
      rw [hcm] at h
      rcases List.mem_cons.mp hm with rfl | hmem
      · exact checkMember_ok_contained dest m (by rw [hcm])
      · exact ih h m hmem

/-- C3: a tar archive handed to the hardened extractor that contains an
absolute member, a member resolving outside the destination (e.g. via a
`..` segment), a symlink or hardlink member, or more than 50000 members,
makes extraction raise; and whenever extraction does run, every written
path lies at or below the destination root (so an error writes nothing
outside it — in the model an error performs no write at all). -/
theorem safeExtract_blocks_unsafe_archives (members : List TarMember) (destDir : String)
    (h : 50000 < members.length ∨ ∃ m ∈ members, memberUnsafe (pathSegs destDir) m) :
    (∃ e, safeExtractTarGz members destDir = Except.error e) ∧
    (∀ ms2 : List TarMember, ∀ dd2 : String, ∀ out,
      safeExtractTarGz ms2 dd2 = Except.ok out →
      ∀ p ∈ out, p = pathSegs dd2 ∨ listStarts (pathSegs dd2) p = true) := by
  constructor
  · rcases h with h | h
    · exact ⟨"Refusing to extract tarball: too many members",
        by simp [safeExtractTarGz, h]⟩
    · by_cases hlen : members.length > 50000
      · exact ⟨"Refusing to extract tarball: too many members",
          by simp [safeExtractTarGz, hlen]⟩
      · obtain ⟨e, he⟩ := checkMembers_error_of_exists (pathSegs destDir) members h
        exact ⟨e, by simp [safeExtractTarGz, hlen, he]⟩
  · intro ms2 dd2 out hok p hp
    by_cases hlen : ms2.length > 50000
    · simp [safeExtractTarGz, hlen] at hok
    · cases hcm : checkMembers (pathSegs dd2) ms2 with
      | error e => simp [safeExtractTarGz, hlen, hcm] at hok
      | ok u =>
        cases u
        have hout : out = ms2.map fun m => resolveUnder (pathSegs dd2) m.name := by
          simp [safeExtractTarGz, hlen, hcm] at hok
          exact hok.symm
        subst hout
        obtain ⟨m, hm, rfl⟩ := List.mem_map.mp hp
        exact checkMembers_ok_contained (pathSegs dd2) ms2 hcm m hm

/-- Witness for C3 at the spec's own example: a member named
`../pwned.txt` aborts extraction. -/
theorem safeExtract_blocks_unsafe_archives_witness :
    ∃ e, safeExtractTarGz [⟨"../pwned.txt", false, false⟩] "/tmp/extract" =
      Except.error e :=
  (safeExtract_blocks_unsafe_archives [⟨"../pwned.txt", false, false⟩] "/tmp/extract"
    (Or.inr (by decide))).1

/-- C7 (amended): in `_ensure_server_venv`, a non-zero venv-creation exit
returns `(none, setup_log)`, while a non-zero dependency-install exit still
returns the venv interpreter path — only the creation step clears it; the
setup-log path is returned in both cases. -/
theorem ensureServerVenv_failure_paths (e : VenvEnv) (serverDir dirName logDir stamp : String) :
    (∀ rc : Int, e.venvPyExists = false → e.venvCreateRc = some rc → ¬(rc = 0) →
      ensureServerVenv e serverDir dirName logDir stamp =
        (none, setupLogPath logDir dirName stamp)) ∧
    (∀ rc2 : Int, e.venvPyExists = false → e.venvCreateRc = some 0 → e.pipRc = some rc2 →
      ensureServerVenv e serverDir dirName logDir stamp =
        (some (serverDir ++ "/.venv/bin/python"), setupLogPath logDir dirName stamp)) := by
  constructor
  · intro rc h1 h2 h3
    simp [ensureServerVenv, h1, h2, h3]
  · intro rc2 h1 h2 h3
    simp [ensureServerVenv, h1, h2, h3]

/-- Witness for C7's amended statement: creation failure clears the path,
and an install failure (`pip` exit 1) keeps it. -/
theorem ensureServerVenv_failure_paths_witness :
    ensureServerVenv ⟨false, some 1, false, some 0⟩ "/srv/app" "app" "/logs" "s0" =
      (none, setupLogPath "/logs" "app" "s0") ∧
    ensureServerVenv ⟨false, some 0, false, some 1⟩ "/srv/app" "app" "/logs" "s0" =
      (some "/srv/app/.venv/bin/python", setupLogPath "/logs" "app" "s0") :=
  ⟨(ensureServerVenv_failure_paths ⟨false, some 1, false, some 0⟩ "/srv/app" "app" "/logs" "s0").1
      1 rfl rfl (by decide),
   (ensureServerVenv_failure_paths ⟨false, some 0, false, some 1⟩ "/srv/app" "app" "/logs" "s0").2
      1 rfl rfl rfl⟩

/-- Counterexample to C7 as stated: with venv creation succeeding and
`pip install -e .` exiting 1 (non-zero), the returned interpreter path is
NOT `none` — it is the venv interpreter. -/
theorem ensureServerVenv_pipFail_counterexample :
    (ensureServerVenv ⟨false, some 0, false, some 1⟩ "/srv/app" "app" "/logs" "s0").1 =
      some "/srv/app/.venv/bin/python" ∧
    ¬((ensureServerVenv ⟨false, some 0, false, some 1⟩ "/srv/app" "app" "/logs" "s0").1 =
      none) := by
  refine ⟨rfl, ?_⟩
  intro h
  rw [show (ensureServerVenv ⟨false, some 0, false, some 1⟩ "/srv/app" "app" "/logs" "s0").1 =
      some "/srv/app/.venv/bin/python" from rfl] at h
  exact Option.noConfusion h

end McpMgr

namespace McpMgr

theorem chooseStep_shape (a b : Int) (best : Option ManagedPython) (mp mm : ManagedPython)
    (h : chooseStep a b best mp = some mm) : best = some mm ∨ mm = mp := by
  unfold chooseStep at h
  rcases hv : versionTuple mp.version with _ | vt <;> simp only [hv] at h
  · exact Or.inl h
  · split_ifs at h with hlt
    · exact Or.inl h
    · rcases best with _ | b0
      · simp at h
        exact Or.inr h.symm
      · rcases hbv : versionTuple b0.version with _ | bvt <;> simp only [hbv] at h
        · exact Or.inl h
        · split_ifs at h with hgt
          · simp at h
            exact Or.inr h.symm
          · exact Or.inl h

theorem foldl_chooseStep_mem (a b : Int) (P : ManagedPython → Prop) :
    ∀ (l : List ManagedPython) (acc : Option ManagedPython),
      (∀ x, acc = some x → P x) → (∀ mp ∈ l, P mp) →
      ∀ mm, l.foldl (chooseStep a b) acc = some mm → P mm := by
  intro l
  induction l with
  | nil => intro acc hacc _ mm hm; exact hacc mm hm
  | cons hd tl ih =>
    intro acc hacc hl mm hm
    refine ih (chooseStep a b acc hd) ?_ (fun mp hmp => hl mp (List.mem_cons_of_mem hd hmp)) mm hm
    intro x hx
    rcases chooseStep_shape a b acc hd x hx with hcase | rfl
    · exact hacc x hcase
    · exact hl x (List.mem_cons_self x tl)

theorem chooseManaged_mem (home : String) (fs : RuntimeFS) (a b : Int)
    (mm : ManagedPython) (h : chooseManagedPythonAtLeast home fs a b = some mm) :
    mm ∈ listManagedPythons home fs :=
  foldl_chooseStep_mem a b (· ∈ listManagedPythons home fs)
    (listManagedPythons home fs) none (by simp) (fun mp hmp => hmp) mm h

theorem listManaged_version_absent (home : String) (fs : RuntimeFS) (v : String)
    (h : fsHasLink fs v = false) :
    ∀ mp ∈ listManagedPythons home fs, mp.version ≠ v := by
  intro mp hmp hv
  unfold fsHasLink at h
  rw [List.any_eq_false] at h
  unfold listManagedPythons at hmp
  by_cases hroot : fs.rootExists = true
  · rw [if_pos hroot] at hmp
    obtain ⟨d, hd, hsome⟩ := List.mem_filterMap.mp hmp
    by_cases hcond : (d.isDir && d.hasPythonLink) = true
    · rw [if_pos hcond] at hsome
      have hname : d.name = v := by
        have h1 := congrArg ManagedPython.version (Option.some.inj hsome)
        simp at h1
        rw [h1]
        exact hv
      have hlink : d.hasPythonLink = true := ((Bool.and_eq_true _ _).mp hcond).2
      have hne := h d hd
      simp [hname, hlink] at hne
    · rw [if_neg hcond] at hsome
      exact Option.noConfusion hsome
  · rw [if_neg hroot] at hmp
    simp at hmp

theorem fsHasLink_fsWipe (fs : RuntimeFS) (v : String) :
    fsHasLink (fsWipe fs v) v = false := by
  unfold fsHasLink fsWipe
  rw [List.any_eq_false]
  intro d' hd'
  by_cases hany : fs.dirs.any (fun d => d.name = v) = true
  · rw [if_pos hany] at hd'
    obtain ⟨d, hd, rfl⟩ := List.mem_map.mp hd'
    by_cases hn : d.name = v <;> simp [hn]
  · rw [if_neg hany] at hd'
    rcases List.mem_append.mp hd' with hmem | hmem
    · rw [Bool.not_eq_true, List.any_eq_false] at hany
      have hne := hany d' hmem
      simp at hne
      simp [hne]
    · simp at hmem
      subst hmem
      simp

theorem fsWipe_has_entry (fs : RuntimeFS) (v : String) :
    ∃ d ∈ (fsWipe fs v).dirs, d.name = v := by
  unfold fsWipe
  by_cases hany : fs.dirs.any (fun d => d.name = v) = true
  · rw [if_pos hany]
    obtain ⟨d, hd, hp⟩ := List.any_eq_true.mp hany
    refine ⟨{ name := v, isDir := true, hasPythonLink := false }, ?_, rfl⟩
    have hn : d.name = v := by simpa using hp
    exact List.mem_map.mpr ⟨d, hd, by simp [hn]⟩
  · rw [if_neg hany]
    exact ⟨{ name := v, isDir := true, hasPythonLink := false }, by simp, rfl⟩

theorem fsHasLink_fsSetLink (fs : RuntimeFS) (v : String)
    (h : ∃ d ∈ fs.dirs, d.name = v) : fsHasLink (fsSetLink fs v) v = true := by
  obtain ⟨d, hd, hn⟩ := h
  unfold fsHasLink fsSetLink
  refine List.any_eq_true.mpr ?_
  refine ⟨{ d with hasPythonLink := true }, List.mem_map.mpr ⟨d, hd, by simp [hn]⟩, ?_⟩
  simp [hn]

theorem ensureRest_error_fs (steps : ProvisionSteps) (home : String) (fs1 : RuntimeFS)
    (version : String) (n : Nat) (s : ProvStep) (msg : String)
    (h : (ensureRest steps home fs1 version n).result = Except.error (s, msg))
    (hs : ¬(s = ProvStep.metaStep)) :
    (ensureRest steps home fs1 version n).fs = fs1 := by
  unfold ensureRest at h ⊢
  rcases hdl : steps.download with e1 | u1 <;> simp only [hdl] at h ⊢
  rcases hex : steps.extract with e2 | u2 <;> simp only [hex] at h ⊢
  rcases hfp : steps.findPy with _ | p1 <;> simp only [hfp] at h ⊢
  rcases hmv : steps.movePayload with e3 | u3 <;> simp only [hmv] at h ⊢
  rcases hfp2 : steps.findPy2 with _ | p2 <;> simp only [hfp2] at h ⊢
  rcases hmw : steps.metaWrite with e4 | u4 <;> simp only [hmw] at h ⊢
  · exfalso
    simp at h
    exact hs h.1.symm
  · exfalso
    exact absurd h (by simp)

theorem ensureRest_ok (steps : ProvisionSteps) (home : String) (fs1 : RuntimeFS)
    (version : String) (n : Nat) (mp : ManagedPython)
    (h : (ensureRest steps home fs1 version n).result = Except.ok mp) :
    mp = { version := version, root := managedPythonDir home version,
           python := managedPythonDir home version ++ "/bin/python3" } ∧
    (ensureRest steps home fs1 version n).fs = fsSetLink fs1 version := by
  unfold ensureRest at h ⊢
  rcases hdl : steps.download with e1 | u1 <;> simp only [hdl] at h ⊢
  · exact absurd h (by simp)
  rcases hex : steps.extract with e2 | u2 <;> simp only [hex] at h ⊢
  · exact absurd h (by simp)
  rcases hfp : steps.findPy with _ | p1 <;> simp only [hfp] at h ⊢
  · exact absurd h (by simp)
  rcases hmv : steps.movePayload with e3 | u3 <;> simp only [hmv] at h ⊢
  · exact absurd h (by simp)
  rcases hfp2 : steps.findPy2 with _ | p2 <;> simp only [hfp2] at h ⊢
  · exact absurd h (by simp)
  rcases hmw : steps.metaWrite with e4 | u4 <;> simp only [hmw] at h ⊢
  · exact absurd h (by simp)
  · simp only [Except.ok.injEq] at h
    exact ⟨h.symm, trivial⟩

/-- C4: when `ensure_managed_python` fails at URL resolution, download,
extraction, either executable search, or the payload move, the version's
`bin/python3` symlink does not exist afterwards, so neither
`list_managed_pythons` nor `choose_managed_python_at_least` can ever
surface that version. -/
theorem ensureManagedPython_failure_leaves_no_link (steps : ProvisionSteps)
    (home : String) (fs : RuntimeFS) (version : String) (url : Option String)
    (force : Bool) (s : ProvStep) (msg : String)
    (h : (ensureManagedPython steps home fs version url force).result =
      Except.error (s, msg))
    (hs : ¬(s = ProvStep.metaStep)) :
    fsHasLink (ensureManagedPython steps home fs version url force).fs version = false ∧
    (∀ mp ∈ listManagedPythons home
        (ensureManagedPython steps home fs version url force).fs,
      mp.version ≠ version) ∧
    (∀ a b : Int, ∀ mm,
      chooseManagedPythonAtLeast home
        (ensureManagedPython steps home fs version url force).fs a b = some mm →
      mm.version ≠ version) := by
  have hfs : (ensureManagedPython steps home fs version url force).fs =
      fsWipe fs version := by
    unfold ensureManagedPython at h ⊢
    by_cases hearly : (fsHasLink fs version && !force) = true
    · rw [if_pos hearly] at h
      exact absurd h (by simp)
    · rw [if_neg hearly] at h ⊢
      by_cases hurl : stripStr (url.getD "") = ""
      · rw [if_pos hurl] at h ⊢
        rcases hres : steps.resolveUrl with e | u
        · simp only [hres] at h ⊢
        · simp only [hres] at h ⊢
          exact ensureRest_error_fs steps home (fsWipe fs version) version 1 s msg h hs
      · rw [if_neg hurl] at h ⊢
        exact ensureRest_error_fs steps home (fsWipe fs version) version 0 s msg h hs
  rw [hfs]
  refine ⟨fsHasLink_fsWipe fs version, ?_, ?_⟩
  · exact listManaged_version_absent home (fsWipe fs version) version
      (fsHasLink_fsWipe fs version)
  · intro a b mm hmm
    exact listManaged_version_absent home (fsWipe fs version) version
      (fsHasLink_fsWipe fs version) mm (chooseManaged_mem home (fsWipe fs version) a b mm hmm)

/-- Witness for C4: a failed URL resolution on an empty catalog leaves no
symlink for version `3.12.1`. -/
theorem ensureManagedPython_failure_leaves_no_link_witness :
    fsHasLink (ensureManagedPython
      ⟨Except.error "network down", Except.ok (), Except.ok (), some "p",
        Except.ok (), some "p2", Except.ok ()⟩
      "/h" ⟨false, []⟩ "3.12.1" none false).fs "3.12.1" = false :=
  (ensureManagedPython_failure_leaves_no_link
    ⟨Except.error "network down", Except.ok (), Except.ok (), some "p",
      Except.ok (), some "p2", Except.ok ()⟩
    "/h" ⟨false, []⟩ "3.12.1" none false ProvStep.resolveUrlStep "network down"
    (by rfl) (by decide)).1

end McpMgr

namespace McpMgr

theorem ensureManagedPython_ok_hasLink (steps : ProvisionSteps) (home : String)
    (fs : RuntimeFS) (version : String) (url : Option String) (force : Bool)
    (mp : ManagedPython)
    (h : (ensureManagedPython steps home fs version url force).result = Except.ok mp) :
    fsHasLink (ensureManagedPython steps home fs version url force).fs version = true ∧
    mp = { version := version, root := managedPythonDir home version,
           python := managedPythonDir home version ++ "/bin/python3" } := by
  unfold ensureManagedPython at h ⊢
  by_cases hearly : (fsHasLink fs version && !force) = true
  · rw [if_pos hearly] at h ⊢
    refine ⟨((Bool.and_eq_true _ _).mp hearly).1, ?_⟩
    simpa using h.symm
  · rw [if_neg hearly] at h ⊢
    have hset : fsHasLink (fsSetLink (fsWipe fs version) version) version = true :=
      fsHasLink_fsSetLink (fsWipe fs version) version (fsWipe_has_entry fs version)
    by_cases hurl : stripStr (url.getD "") = ""
    · rw [if_pos hurl] at h ⊢
      rcases hres : steps.resolveUrl with e | u
      · simp only [hres] at h
        exact absurd h (by simp)
      · simp only [hres] at h ⊢
        obtain ⟨hmp, hfs⟩ :=
          ensureRest_ok steps home (fsWipe fs version) version 1 mp h
        rw [hfs]
        exact ⟨hset, hmp⟩
    · rw [if_neg hurl] at h ⊢
      obtain ⟨hmp, hfs⟩ :=
        ensureRest_ok steps home (fsWipe fs version) version 0 mp h
      rw [hfs]
      exact ⟨hset, hmp⟩

/-- C9: after a successful `ensure_managed_python(version)` without
`force`, calling it again without `force` performs no network operation,
leaves the runtime filesystem unchanged, and returns the identical
interpreter record (hence the identical `bin/python3` path). -/
theorem ensureManagedPython_idempotent (steps steps2 : ProvisionSteps) (home : String)
    (fs : RuntimeFS) (version : String) (url url2 : Option String) (mp : ManagedPython)
    (h : (ensureManagedPython steps home fs version url false).result = Except.ok mp) :
    ensureManagedPython steps2 home
        (ensureManagedPython steps home fs version url false).fs version url2 false =
      ⟨Except.ok mp, (ensureManagedPython steps home fs version url false).fs, 0⟩ := by
  obtain ⟨hlink, hmp⟩ :=
    ensureManagedPython_ok_hasLink steps home fs version url false mp h
  generalize hG : (ensureManagedPython steps home fs version url false).fs = fsDone at hlink ⊢
  unfold ensureManagedPython
  rw [if_pos (by simp [hlink])]
  rw [hmp]

/-- Witness for C9: a concrete fully successful install followed by a
second call with a fresh step oracle: zero network calls the second time. -/
theorem ensureManagedPython_idempotent_witness :
    (ensureManagedPython
      ⟨Except.ok "u2", Except.error "no net", Except.ok (), some "p",
        Except.ok (), some "p2", Except.ok ()⟩
      "/h"
      (ensureManagedPython
        ⟨Except.ok "u", Except.ok (), Except.ok (), some "p",
          Except.ok (), some "p2", Except.ok ()⟩
        "/h" ⟨false, []⟩ "3.12.1" none false).fs
      "3.12.1" none false).networkCalls = 0 := by
  rw [ensureManagedPython_idempotent
    ⟨Except.ok "u", Except.ok (), Except.ok (), some "p",
      Except.ok (), some "p2", Except.ok ()⟩
    ⟨Except.ok "u2", Except.error "no net", Except.ok (), some "p",
      Except.ok (), some "p2", Except.ok ()⟩
    "/h" ⟨false, []⟩ "3.12.1" none none
    ⟨"3.12.1", managedPythonDir "/h" "3.12.1",
      managedPythonDir "/h" "3.12.1" ++ "/bin/python3"⟩
    (by rfl)]

end McpMgr

namespace McpMgr

theorem resolveLoop_all_fail (want o ar : String) :
    ∀ (l : List Asset) (best : Option (String × Nat)),
      (∀ a ∈ l, assetPasses want o ar a = false) →
      resolveLoop want o ar l best = best := by
  intro l
  induction l with
  | nil => intro best _; rfl
  | cons a rest ih =>
    intro best hall
    unfold resolveLoop
    rw [if_neg (by simp [hall a (List.mem_cons_self a rest)])]
    exact ih best fun b hb => hall b (List.mem_cons_of_mem a hb)

theorem resolveLoop_ok_spec (want o ar : String) :
    ∀ (l : List Asset) (best : Option (String × Nat)) (u : String) (sc : Nat),
      resolveLoop want o ar l best = some (u, sc) →
      (best = some (u, sc) ∨
        ∃ a ∈ l, assetPasses want o ar a = true ∧ a.url = u ∧ assetScore a = sc) ∧
      (∀ b ∈ l, assetPasses want o ar b = true → assetScore b ≤ sc) ∧
      (∀ bu : String, ∀ bs : Nat, best = some (bu, bs) → bs ≤ sc) := by
  intro l
  induction l with
  | nil =>
    intro best u sc h
    have hbest : best = some (u, sc) := h
    refine ⟨Or.inl hbest, ?_, ?_⟩
    · intro b hb
      simp at hb
    · intro bu bs hb
      rw [hb] at hbest
      exact Nat.le_of_eq (congrArg Prod.snd (Option.some.inj hbest))
  | cons a rest ih =>
    intro best u sc h
    by_cases hp : assetPasses want o ar a = true
    · rcases best with _ | ⟨bu0, bs0⟩
      · simp only [resolveLoop, hp, if_true] at h
        obtain ⟨h1, h2, h3⟩ := ih (some (a.url, assetScore a)) u sc h
        refine ⟨?_, ?_, ?_⟩
        · rcases h1 with h1 | ⟨a2, ha2, hgood⟩
          · have := Option.some.inj h1
            exact Or.inr ⟨a, List.mem_cons_self a rest, hp,
              congrArg Prod.fst this, congrArg Prod.snd this⟩
          · exact Or.inr ⟨a2, List.mem_cons_of_mem a ha2, hgood⟩
        · intro b hb hpb
          rcases List.mem_cons.mp hb with rfl | hbm
          · exact h3 b.url (assetScore b) rfl
          · exact h2 b hbm hpb
        · intro bu bs hb
          exact Option.noConfusion hb
      · simp only [resolveLoop, hp, if_true] at h
        by_cases hcmp : bs0 < assetScore a
        · rw [if_pos hcmp] at h
          obtain ⟨h1, h2, h3⟩ := ih (some (a.url, assetScore a)) u sc h
          refine ⟨?_, ?_, ?_⟩
          · rcases h1 with h1 | ⟨a2, ha2, hgood⟩
            · have := Option.some.inj h1
              exact Or.inr ⟨a, List.mem_cons_self a rest, hp,
                congrArg Prod.fst this, congrArg Prod.snd this⟩
            · exact Or.inr ⟨a2, List.mem_cons_of_mem a ha2, hgood⟩
          · intro b hb hpb
            rcases List.mem_cons.mp hb with rfl | hbm
            · exact h3 b.url (assetScore b) rfl
            · exact h2 b hbm hpb
          · intro bu bs hb
            have hbs : bs = bs0 := (congrArg Prod.snd (Option.some.inj hb)).symm
            rw [hbs]
            exact Nat.le_trans (Nat.le_of_lt hcmp) (h3 a.url (assetScore a) rfl)
        · rw [if_neg hcmp] at h
          obtain ⟨h1, h2, h3⟩ := ih (some (bu0, bs0)) u sc h
          refine ⟨?_, ?_, ?_⟩
          · rcases h1 with h1 | ⟨a2, ha2, hgood⟩
            · exact Or.inl h1
            · exact Or.inr ⟨a2, List.mem_cons_of_mem a ha2, hgood⟩
          · intro b hb hpb
            rcases List.mem_cons.mp hb with rfl | hbm
            · exact Nat.le_trans (Nat.le_of_not_lt hcmp) (h3 bu0 bs0 rfl)
            · exact h2 b hbm hpb
          · intro bu bs hb
            have hbs : bs = bs0 := (congrArg Prod.snd (Option.some.inj hb)).symm
            rw [hbs]
            exact h3 bu0 bs0 rfl
    · rw [Bool.not_eq_true] at hp
      simp only [resolveLoop, hp, if_false] at h
      obtain ⟨h1, h2, h3⟩ := ih best u sc h
      refine ⟨?_, ?_, ?_⟩
      · rcases h1 with h1 | ⟨a2, ha2, hgood⟩
        · exact Or.inl h1
        · exact Or.inr ⟨a2, List.mem_cons_of_mem a ha2, hgood⟩
      · intro b hb hpb
        rcases List.mem_cons.mp hb with rfl | hbm
        · rw [hp] at hpb
          exact Bool.noConfusion hpb
        · exact h2 b hbm hpb
      · exact h3

/-- C8 (amended): the standalone-runtime URL resolver considers exactly the
assets whose lowered name contains `cpython-<version>`, the OS token and
the architecture token and ends in `.tar.gz` (with nonempty name and URL);
it raises when no asset passes that filter, and any returned URL belongs to
a passing asset of maximal additive score (`install_only` +10, `pgo` +1,
`lto` +1) — the install-only variant is preferred, not required. -/
theorem resolveStandaloneUrl_filter_and_score (version arch osToken : String)
    (rels : List (List Asset)) :
    ((∀ a ∈ rels.flatten,
        assetPasses (lowerStr ("cpython-" ++ version)) osToken arch a = false) →
      ∃ e, resolveStandalonePythonUrl version "indygreg" arch osToken (some rels) =
        Except.error e) ∧
    (∀ u, resolveStandalonePythonUrl version "indygreg" arch osToken (some rels) =
        Except.ok u →
      ∃ a ∈ rels.flatten,
        assetPasses (lowerStr ("cpython-" ++ version)) osToken arch a = true ∧
        a.url = u ∧
        ∀ b ∈ rels.flatten,
          assetPasses (lowerStr ("cpython-" ++ version)) osToken arch b = true →
          assetScore b ≤ assetScore a) := by
  have hprov : ¬¬(lowerStr (stripStr "indygreg") = "indygreg") := by decide
  constructor
  · intro hall
    refine ⟨"No standalone Python asset found for " ++ version ++ " (" ++ arch ++
      "-" ++ osToken ++ "). Provide an explicit --url.", ?_⟩
    unfold resolveStandalonePythonUrl
    rw [if_neg hprov]
    have hl := resolveLoop_all_fail (lowerStr ("cpython-" ++ version)) osToken arch
      rels.flatten none hall
    simp only [hl]
  · intro u hu
    unfold resolveStandalonePythonUrl at hu
    rw [if_neg hprov] at hu
    rcases hloop : resolveLoop (lowerStr ("cpython-" ++ version)) osToken arch
        rels.flatten none with _ | ⟨u0, sc⟩
    · simp only [hloop] at hu
      exact absurd hu (by simp)
    · simp only [hloop] at hu
      have huu : u0 = u := by simpa using hu
      obtain ⟨h1, h2, _⟩ := resolveLoop_ok_spec (lowerStr ("cpython-" ++ version))
        osToken arch rels.flatten none u0 sc hloop
      rcases h1 with h1 | ⟨a, ha, hpass, hurl, hscore⟩
      · exact Option.noConfusion h1
      · refine ⟨a, ha, hpass, by rw [hurl, huu], ?_⟩
        intro b hb hpb
        rw [hscore]
        exact h2 b hb hpb

/-- Witness for C8's amended statement: with no matching asset the resolver
errors. -/
theorem resolveStandaloneUrl_filter_and_score_witness :
    ∃ e, resolveStandalonePythonUrl "3.12.1" "indygreg" "x86_64" "unknown-linux"
      (some []) = Except.error e :=
  (resolveStandaloneUrl_filter_and_score "3.12.1" "x86_64" "unknown-linux" []).1
    (by simp)

/-- Counterexample to C8 as stated: a release whose only matching assets
are an `lto` and a `pgo` build (no `install_only` variant) does not raise —
it returns the `lto` asset seen first (ties are kept, so `pgo` is not
preferred over `lto`). -/
theorem resolveStandaloneUrl_counterexample :
    resolveStandalonePythonUrl "3.12.1" "indygreg" "x86_64" "unknown-linux"
      (some [[⟨"cpython-3.12.1-x86_64-unknown-linux-gnu-lto-full.tar.gz", "u-lto"⟩,
              ⟨"cpython-3.12.1-x86_64-unknown-linux-gnu-pgo-full.tar.gz", "u-pgo"⟩]]) =
      Except.ok "u-lto" ∧
    strHasSub (lowerStr "cpython-3.12.1-x86_64-unknown-linux-gnu-lto-full.tar.gz")
      "install_only" = false ∧
    strHasSub (lowerStr "cpython-3.12.1-x86_64-unknown-linux-gnu-pgo-full.tar.gz")
      "install_only" = false := by
  refine ⟨by rfl, by rfl, by rfl⟩

end McpMgr

namespace McpMgr

theorem gateStage_blocked (w : World) (t : LaunchConfig) (argv : List String)
    (note : Option String) (rp : Option String) (cwd : Option String)
    (minV : Int × Int) (ver : Int × Int × Int)
    (hmin : minPythonFromSpec rp = some minV)
    (hver : pythonVersionTuple w (argv.headD "") = some ver)
    (hlt : pairLt (ver.1, ver.2.1) minV = true)
    (hsys : findPythonAtLeast w minV (some (argv.headD "")) = none)
    (hman : managedLookup w t minV = none) :
    gateStage w t argv note rp cwd = Except.error (blockedResp w t argv note rp cwd minV ver) := by
  simp only [gateStage, hmin, hver, hlt, if_true, hsys, hman]

theorem gateStage_skip_of_probe_none (w : World) (t : LaunchConfig) (argv : List String)
    (note : Option String) (rp : Option String) (cwd : Option String)
    (hver : pythonVersionTuple w (argv.headD "") = none) :
    gateStage w t argv note rp cwd = Except.ok (argv, note) := by
  rcases hmin : minPythonFromSpec rp with _ | minV <;>
    simp only [gateStage, hmin, hver]

theorem serverControlStart_resolved (w : World) (t : LaunchConfig) (argv : List String)
    (cwd : Option String) (env : List (String × String)) (note : Option String)
    (rp : Option String)
    (hres : resolveServerRun w t = ResolveResult.ok argv cwd env note rp)
    (hargv : ¬(argv = [])) :
    serverControlStart w t =
      match gateStage w t argv (repairStage w t argv note) rp cwd with
      | Except.error resp => ⟨resp, []⟩
      | Except.ok (argv2, note2) =>
        superviseStage w t (venvStage w t argv2 note2).1
          (venvStage w t argv2 note2).2.1 cwd := by
  have hcmd : ¬(t.startCmd.getD "" = "") := by
    intro hc
    simp only [resolveServerRun, hc] at hres
    simp at hres
  simp only [serverControlStart, hcmd, hres, hargv]
  simp

end McpMgr

namespace McpMgr

theorem superviseStage_first_spawn (w : World) (t : LaunchConfig) (argv : List String)
    (note : Option String) (cwd : Option String) :
    ((superviseStage w t argv note cwd).spawns.map SpawnRec.argv).head? = some argv := by
  unfold superviseStage
  rcases hfe : w.behavior1.fastExit with _ | rc
  · by_cases htb : strHasSub w.behavior1.graceTail "Traceback (most recent call last):" = true
    · by_cases hsig : looksLikePythonLt310UnionError w.behavior1.graceTail = true
      · rcases hfb : findPythonAtLeast w (3, 10) (some (argv.headD "")) with _ | fb
        · simp [htb, hsig, hfb]
        · rcases hb2 : w.behavior2FastExit with _ | rc2 <;> simp [htb, hsig, hfb, hb2]
      · simp [htb, hsig]
    · simp [htb]
  · by_cases hsig : looksLikePythonLt310UnionError w.behavior1.logTail = true
    · rcases hfb : findPythonAtLeast w (3, 10) (some (argv.headD "")) with _ | fb
      · simp [hsig, hfb]
      · rcases hb2 : w.behavior2FastExit with _ | rc2
        · simp [hsig, hfb, hb2]
        · by_cases hsl : w.sessionLogger = true <;> simp [hsig, hfb, hb2, hsl]
    · simp [hsig]

theorem superviseStage_two_spawns_sig (w : World) (t : LaunchConfig) (argv : List String)
    (note : Option String) (cwd : Option String)
    (h : 2 ≤ (superviseStage w t argv note cwd).spawns.length) :
    looksLikePythonLt310UnionError w.behavior1.logTail = true ∨
    looksLikePythonLt310UnionError w.behavior1.graceTail = true := by
  unfold superviseStage at h
  rcases hfe : w.behavior1.fastExit with _ | rc <;> rw [hfe] at h
  · by_cases htb : strHasSub w.behavior1.graceTail "Traceback (most recent call last):" = true
    · by_cases hsig : looksLikePythonLt310UnionError w.behavior1.graceTail = true
      · exact Or.inr hsig
      · simp [htb, hsig] at h
    · simp [htb] at h
  · by_cases hsig : looksLikePythonLt310UnionError w.behavior1.logTail = true
    · exact Or.inl hsig
    · simp [hsig] at h

theorem superviseStage_le_two_spawns (w : World) (t : LaunchConfig) (argv : List String)
    (note : Option String) (cwd : Option String) :
    (superviseStage w t argv note cwd).spawns.length ≤ 2 := by
  unfold superviseStage
  rcases hfe : w.behavior1.fastExit with _ | rc
  · by_cases htb : strHasSub w.behavior1.graceTail "Traceback (most recent call last):" = true
    · by_cases hsig : looksLikePythonLt310UnionError w.behavior1.graceTail = true
      · rcases hfb : findPythonAtLeast w (3, 10) (some (argv.headD "")) with _ | fb
        · simp [htb, hsig, hfb]
        · rcases hb2 : w.behavior2FastExit with _ | rc2 <;> simp [htb, hsig, hfb, hb2]
      · simp [htb, hsig]
    · simp [htb]
  · by_cases hsig : looksLikePythonLt310UnionError w.behavior1.logTail = true
    · rcases hfb : findPythonAtLeast w (3, 10) (some (argv.headD "")) with _ | fb
      · simp [hsig, hfb]
      · rcases hb2 : w.behavior2FastExit with _ | rc2
        · simp [hsig, hfb, hb2]
        · by_cases hsl : w.sessionLogger = true <;> simp [hsig, hfb, hb2, hsl]
    · simp [hsig]

end McpMgr

namespace McpMgr

theorem venvStage_no_path (w : World) (t : LaunchConfig) (argv : List String)
    (note : Option String) (hpath : w.pathExists = false) :
    venvStage w t argv note = (argv, note, none) := by
  unfold venvStage
  split
  · rw [if_neg (by simp [hpath])]
  · rfl

/-- A concrete oracle world: a lone `python3` at 3.9.7, a pyproject
declaring `requires-python >= 3.10`, no system candidates, no managed
runtimes, immediate exit of the first spawn. -/
def sampleWorld : World :=
  { shlexSplit := fun s => if s = "python3 app.py" then ["python3", "app.py"] else []
    osEnviron := []
    which := fun _ => none
    abspath := fun s => s
    probeRaw := fun e => if e = "python3" then some ⟨0, "3.9.7"⟩ else none
    pyprojectExists := true
    parsedRequiresPython := some ">=3.10"
    scripts := []
    srcDirExists := false
    pathExists := true
    needsRepair := false
    repairOk := false
    venv := ⟨false, some 1, false, some 0⟩
    runtimeFS := ⟨false, []⟩
    runtimeHome := "/h"
    logDir := "/logs"
    stamp := fun n => "t" ++ toString n
    sessionLogger := false
    behavior1 := ⟨some 1, "", ""⟩
    behavior2FastExit := some 1 }

def sampleCfg : LaunchConfig := ⟨"srv", some "python3 app.py", some "/srv/app", none⟩

/-- C1 (amended): when the resolved server declares a `requires-python`
minimum that the probed `argv[0]` interpreter does not meet, the system
candidate scan yields nothing, and the managed lookup finds nothing —
neither an installed runtime exactly matching the descriptor's pin (which
would be accepted regardless of its version) nor an installed runtime with
version at least the constraint — `server_control` spawns no process and
returns the 409 blocked response carrying the constraint string, the
probed `(major, minor, patch)` version, and the remediation hint. -/
theorem versionGate_blocks (w : World) (t : LaunchConfig) (argv : List String)
    (cwd : Option String) (env : List (String × String)) (note : Option String)
    (rp : Option String) (minV : Int × Int) (ver : Int × Int × Int)
    (hres : resolveServerRun w t = ResolveResult.ok argv cwd env note rp)
    (hargv : ¬(argv = []))
    (hmin : minPythonFromSpec rp = some minV)
    (hver : pythonVersionTuple w (argv.headD "") = some ver)
    (hlt : pairLt (ver.1, ver.2.1) minV = true)
    (hsys : findPythonAtLeast w minV (some (argv.headD "")) = none)
    (hman : managedLookup w t minV = none) :
    (serverControlStart w t).spawns = [] ∧
    (serverControlStart w t).resp.status = 409 ∧
    (serverControlStart w t).resp.error = some "Runtime mismatch: Python version too old" ∧
    (serverControlStart w t).resp.requiresPython = rp ∧
    (serverControlStart w t).resp.python = some ver ∧
    (serverControlStart w t).resp.nextStep =
      some ("mcp-observer runtime ensure --python " ++ toString minV.1 ++ "." ++
        toString minV.2 ++ ".0") := by
  rw [serverControlStart_resolved w t argv cwd env note rp hres hargv]
  rw [gateStage_blocked w t argv (repairStage w t argv note) rp cwd minV ver
    hmin hver hlt hsys hman]
  simp [blockedResp, respBase]

/-- Witness for C1: a 3.9.7 interpreter against `>=3.10` with no
alternatives is blocked with no spawn. -/
theorem versionGate_blocks_witness :
    (serverControlStart sampleWorld sampleCfg).spawns = [] ∧
    (serverControlStart sampleWorld sampleCfg).resp.status = 409 := by
  have h := versionGate_blocks sampleWorld sampleCfg ["python3", "app.py"]
    (some "/srv/app") [] none (some ">=3.10") (3, 10) (3, 9, 7)
    (by rfl) (by decide) (by rfl) (by rfl) (by decide) (by rfl) (by rfl)
  exact ⟨h.1, h.2.1⟩

end McpMgr

namespace McpMgr

/-- World of the C1 counterexample: one managed runtime is installed, at
version 2.7.0 (below the constraint), and the descriptor pins it. -/
def pinWorld : World :=
  { sampleWorld with
    runtimeFS := ⟨true, [⟨"2.7.0", true, true⟩]⟩
    behavior1 := ⟨none, "", ""⟩ }

def pinCfg : LaunchConfig := ⟨"srv", some "python3 app.py", some "/srv/app", some "2.7.0"⟩

/-- Counterexample to C1 as stated: `requires-python >= 3.10` is declared,
`argv[0]` probes to 3.9.7, no system interpreter satisfies the constraint,
and the only managed runtime is 2.7.0 — which does not satisfy it either —
yet the engine spawns with that pinned runtime and returns success instead
of the blocked response: the exact-pin lookup accepts an installed pin
without any version check. -/
theorem pinnedOldRuntime_counterexample :
    minPythonFromSpec (some ">=3.10") = some (3, 10) ∧
    pythonVersionTuple pinWorld "python3" = some (3, 9, 7) ∧
    findPythonAtLeast pinWorld (3, 10) (some "python3") = none ∧
    listManagedPythons pinWorld.runtimeHome pinWorld.runtimeFS =
      [⟨"2.7.0", "/h/python/2.7.0", "/h/python/2.7.0/bin/python3"⟩] ∧
    versionTuple "2.7.0" = some (2, 7, 0) ∧
    pairLt (2, 7) (3, 10) = true ∧
    ((serverControlStart pinWorld pinCfg).spawns.map SpawnRec.argv) =
      [["/h/python/2.7.0/bin/python3", "app.py"]] ∧
    (serverControlStart pinWorld pinCfg).resp.status = 200 :=
  ⟨by rfl, by rfl, by rfl, by rfl, by rfl, by decide, by rfl, by rfl⟩

/-- World of the C5 counterexample: the version probe of `argv[0]` fails
(`none`) while the descriptor declares `requires-python >= 3.10`. -/
def probeNoneWorld : World :=
  { sampleWorld with
    probeRaw := fun _ => none
    behavior1 := ⟨none, "", ""⟩
    pathExists := false }

/-- Counterexample to C5 as stated: `requires-python >= 3.10` is declared
and the probe of `argv[0]` yields `none`, yet the engine neither searches
nor blocks — it spawns once with that very interpreter and reports
success (the gate is `if ver and ...`, so a `none` probe skips it). -/
theorem probeNone_spawn_counterexample :
    minPythonFromSpec (some ">=3.10") = some (3, 10) ∧
    pythonVersionTuple probeNoneWorld "python3" = none ∧
    ((serverControlStart probeNoneWorld sampleCfg).spawns.map SpawnRec.argv) =
      [["python3", "app.py"]] ∧
    (serverControlStart probeNoneWorld sampleCfg).resp.status = 200 :=
  ⟨by rfl, by rfl, by rfl, by rfl⟩

/-- C5 (amended): when the probe of the resolved `argv[0]` returns `none`
(the probe itself never raises — it is total), the version gate is skipped
entirely and the first spawn uses the resolved `argv[0]` unchanged; only
the candidate scan of `_find_python_at_least` treats a `none` probe as
incompatible. -/
theorem probeNone_skips_gate (w : World) (t : LaunchConfig) (argv : List String)
    (cwd : Option String) (env : List (String × String)) (note : Option String)
    (rp : Option String) (minV : Int × Int)
    (hres : resolveServerRun w t = ResolveResult.ok argv cwd env note rp)
    (hargv : ¬(argv = []))
    (_hmin : minPythonFromSpec rp = some minV)
    (hver : pythonVersionTuple w (argv.headD "") = none)
    (hpath : w.pathExists = false) :
    ((serverControlStart w t).spawns.map SpawnRec.argv).head? = some argv := by
  rw [serverControlStart_resolved w t argv cwd env note rp hres hargv]
  simp only [gateStage_skip_of_probe_none w t argv (repairStage w t argv note) rp cwd hver]
  rw [venvStage_no_path w t argv (repairStage w t argv note) hpath]
  exact superviseStage_first_spawn w t argv (repairStage w t argv note) cwd

/-- Witness for C5's amended statement: the unprobed interpreter is the one
spawned. -/
theorem probeNone_skips_gate_witness :
    ((serverControlStart probeNoneWorld sampleCfg).spawns.map SpawnRec.argv).head? =
      some ["python3", "app.py"] :=
  probeNone_skips_gate probeNoneWorld sampleCfg ["python3", "app.py"]
    (some "/srv/app") [] none (some ">=3.10") (3, 10)
    (by rfl) (by decide) (by rfl) (by rfl) (by rfl)

def emptyCmdCfg : LaunchConfig := ⟨"srv", some "", some "/srv/app", none⟩

/-- Counterexample to C6 as stated: an empty start command is answered by
the earlier `No start command defined` guard (HTTP 400), not by a response
stating that no start command could be resolved. -/
theorem emptyCmd_counterexample :
    (serverControlStart sampleWorld emptyCmdCfg).spawns = [] ∧
    (serverControlStart sampleWorld emptyCmdCfg).resp.error =
      some "No start command defined" ∧
    ¬((serverControlStart sampleWorld emptyCmdCfg).resp.error =
      some ("No start command resolved for '" ++ emptyCmdCfg.sId ++ "'")) := by
  refine ⟨by rfl, by rfl, ?_⟩
  intro h
  rw [show (serverControlStart sampleWorld emptyCmdCfg).resp.error =
    some "No start command defined" from rfl] at h
  exact absurd (Option.some.inj h) (by decide)

/-- C6 (amended): a descriptor with an absent or empty start command gets
the 400 `No start command defined` response with no process created; the
`No start command resolved` response arises for a nonempty command whose
`shlex` split is empty — also with no process created. -/
theorem emptyCmd_no_spawn (w : World) (t : LaunchConfig) :
    ((t.startCmd = none ∨ t.startCmd = some "") →
      serverControlStart w t =
        ⟨{ respBase with
            status := 400
            error := some "No start command defined" }, []⟩) ∧
    (∀ cmd, t.startCmd = some cmd → ¬(cmd = "") → w.shlexSplit cmd = [] →
      serverControlStart w t =
        ⟨{ respBase with
            status := 400
            error := some ("No start command resolved for '" ++ t.sId ++ "'") }, []⟩) := by
  constructor
  · intro hc
    have hcd : t.startCmd.getD "" = "" := by
      rcases hc with hc | hc <;> simp [hc]
    simp [serverControlStart, hcd]
  · intro cmd hcmd hne hsplit
    have hcd : t.startCmd.getD "" = cmd := by simp [hcmd]
    have hres : resolveServerRun w t = ResolveResult.ok [] t.path w.osEnviron none
        (match t.path with
         | some _ => if w.pyprojectExists then w.parsedRequiresPython else none
         | none => none) := by
      simp only [resolveServerRun, hcd, hne, hsplit]
      simp
    simp [serverControlStart, hcd, hne, hres]

/-- Witness for C6's amended statement at an empty and a blank-only start
command. -/
theorem emptyCmd_no_spawn_witness :
    serverControlStart sampleWorld emptyCmdCfg =
      ⟨{ respBase with
          status := 400
          error := some "No start command defined" }, []⟩ ∧
    serverControlStart sampleWorld ⟨"srv", some " ", some "/srv/app", none⟩ =
      ⟨{ respBase with
          status := 400
          error := some ("No start command resolved for '" ++ "srv" ++ "'") }, []⟩ :=
  ⟨(emptyCmd_no_spawn sampleWorld emptyCmdCfg).1 (Or.inr rfl),
   (emptyCmd_no_spawn sampleWorld ⟨"srv", some " ", some "/srv/app", none⟩).2
     " " rfl (by decide) (by rfl)⟩

end McpMgr

namespace McpMgr

/-- The log tail of a Python-before-3.10 PEP604 union crash. -/
def unionCrashTail : String :=
  "TypeError: unsupported operand type(s) for |: 'type' and 'NoneType'"

/-- World of the C2 failing input: no version gate, signature crash of the
first spawn, a newer `python3.13` available, the retried spawn also exits
fast, and no session logger. -/
def retryBugWorld : World :=
  { sampleWorld with
    pyprojectExists := false
    which := fun n => if n = "python3.13" then some "/usr/bin/python3.13" else none
    probeRaw := fun e =>
      if e = "/usr/bin/python3.13" then some ⟨0, "3.13.1"⟩
      else if e = "python3" then some ⟨0, "3.9.7"⟩ else none
    behavior1 := ⟨some 1, unionCrashTail, ""⟩
    behavior2FastExit := some 1
    sessionLogger := false }

/-- C2 (failing input): with the recognized union-crash signature in the
first log, a newer interpreter available, the retried spawn also exiting
within the fast-fail window, and no session logger, the handler performs
the two spawns (second `argv[0]` = the fallback path) but — because the
retry-failure return is nested inside `if session_logger:` — responds with
the generic immediate-exit failure of the FIRST spawn and no retry
provenance. -/
theorem signatureRetry_missing_provenance :
    ((serverControlStart retryBugWorld sampleCfg).spawns.map SpawnRec.argv) =
      [["python3", "app.py"], ["/usr/bin/python3.13", "app.py"]] ∧
    (serverControlStart retryBugWorld sampleCfg).resp.retry = none ∧
    (serverControlStart retryBugWorld sampleCfg).resp.returncode = some 1 ∧
    (serverControlStart retryBugWorld sampleCfg).resp.logPath =
      some "/logs/srv_t1.log" ∧
    (serverControlStart retryBugWorld sampleCfg).resp.error =
      some "Server exited immediately after start" :=
  ⟨by rfl, by rfl, by rfl, by rfl, by rfl⟩

/-- C10: the retry-eligibility signature holds iff the lowercased log tail
contains both `unsupported operand type(s) for |` and `nonetype`; and the
supervisor consults no other pattern — any launch with two spawn
invocations had this signature hold on the first process's fast-fail or
grace-period log tail. -/
theorem signature_iff_and_only_pattern :
    (∀ s : String, looksLikePythonLt310UnionError s = true ↔
      (strHasSub (lowerStr s) "unsupported operand type(s) for |" = true ∧
       strHasSub (lowerStr s) "nonetype" = true)) ∧
    (∀ (w : World) (t : LaunchConfig),
      2 ≤ (serverControlStart w t).spawns.length →
      looksLikePythonLt310UnionError w.behavior1.logTail = true ∨
      looksLikePythonLt310UnionError w.behavior1.graceTail = true) := by
  constructor
  · intro s
    unfold looksLikePythonLt310UnionError
    constructor
    · intro h
      exact (Bool.and_eq_true _ _).mp h
    · intro h
      simp [h.1, h.2]
  · intro w t h
    by_cases hc : t.startCmd.getD "" = ""
    · simp [serverControlStart, hc] at h
    · rcases hr : resolveServerRun w t with _ | ⟨argv, cwd, env, note, rp⟩
      · simp [serverControlStart, hc, hr] at h
      · by_cases hargv : argv = []
        · simp [serverControlStart, hc, hr, hargv] at h
        · rw [serverControlStart_resolved w t argv cwd env note rp hr hargv] at h
          rcases hg : gateStage w t argv (repairStage w t argv note) rp cwd
            with resp | ⟨argv2, note2⟩
          · simp only [hg] at h
            simp at h
          · simp only [hg] at h
            exact superviseStage_two_spawns_sig w t _ _ cwd h

/-- Witness for C10: the canonical crash line satisfies the signature, and
the two-spawn world did match the signature. -/
theorem signature_iff_and_only_pattern_witness :
    looksLikePythonLt310UnionError unionCrashTail = true ∧
    (looksLikePythonLt310UnionError retryBugWorld.behavior1.logTail = true ∨
     looksLikePythonLt310UnionError retryBugWorld.behavior1.graceTail = true) :=
  ⟨(signature_iff_and_only_pattern.1 unionCrashTail).mpr ⟨by rfl, by rfl⟩,
   signature_iff_and_only_pattern.2 retryBugWorld sampleCfg (by decide)⟩

end McpMgr
